import Mathlib

/-!
Verification of the Zendesk source connector
(`src/backend/app/platform/sources/zendesk.py`).

The connector is embedded shallowly:

* JSON payloads are the inductive type `JVal`; decoded response bodies
  (which the code types as `Dict`) are association lists `Page`.
* Python semantics used by the code are explicit functions:
  `pyStr` is Python `str()`, `pyTruthy` is Python truthiness,
  `lookupField` is `dict.get` (returning `none` when the key is absent),
  `pyIter` is Python iteration over a value.
* Each `yield Zendesk...Chunk(...)` constructor call becomes a
  `mk...Chunk` function returning `Except PyErr _`; a missing `"id"` key
  raises `KeyError` exactly as `record["id"]` does.
* Each `while url:` pagination loop becomes a fueled recursion
  (`extractLoop`, `ticketsLoop`); fuel exhaustion is the distinguished
  error `PyErr.fuelExhausted`, so fuel-independence expresses loop
  termination.
* A run's observable behaviour is a `Run`: the chunks yielded before any
  error, the URLs fetched in order, and the terminal error if one was
  raised.  The remote API is a pure map `Remote` from URL to response,
  and `_get_with_auth` / `raise_for_status` become `httpGet`.
-/

/-- A JSON value as decoded by Python (`null` is Python `None`). -/
inductive JVal where
  | null
  | bool (b : Bool)
  | num (n : Int)
  | str (s : String)
  | arr (xs : List JVal)
  | obj (fields : List (String × JVal))
deriving Repr

/-- Model of `dict.get(k)` on a decoded JSON object: the stored value when the key
is present (possibly `JVal.null`), `none` when it is absent. -/
def lookupField (fs : List (String × JVal)) (k : String) : Option JVal :=
  match fs with
  | [] => none
  | (k', v) :: rest => if k' = k then some v else lookupField rest k

/-- Python truthiness of a decoded JSON value (`while url:` and `... or None`). -/
def pyTruthy : JVal → Bool
  | .null => false
  | .bool b => b
  | .num n => n ≠ 0
  | .str s => s ≠ ""
  | .arr xs => !xs.isEmpty
  | .obj fs => !fs.isEmpty

mutual
/-- Python `repr()` of a decoded JSON value. -/
def pyRepr : JVal → String
  | .null => "None"
  | .bool true => "True"
  | .bool false => "False"
  | .num n => toString n
  | .str s => "\x27" ++ s ++ "\x27"
  | .arr xs => "[" ++ String.intercalate ", " (pyReprList xs) ++ "]"
  | .obj fs => "\x7b" ++ String.intercalate ", " (pyReprFields fs) ++ "\x7d"

/-- `repr()` of each element of a list. -/
def pyReprList : List JVal → List String
  | [] => []
  | x :: xs => pyRepr x :: pyReprList xs

/-- `repr()` of each key/value pair of an object. -/
def pyReprFields : List (String × JVal) → List String
  | [] => []
  | (k, v) :: fs => ("\x27" ++ k ++ "\x27: " ++ pyRepr v) :: pyReprFields fs
end

/-- Python `str()` of a decoded JSON value: the string itself for strings,
`"None"` for `None`, decimal for integers, `repr` otherwise. -/
def pyStr : JVal → String
  | .str s => s
  | v => pyRepr v

/-- Python exceptions the connector can raise, plus the marker for an
out-of-fuel pagination loop (modelling potential divergence). -/
inductive PyErr where
  | keyError (k : String)
  | typeError
  | httpStatus (status : Nat)
  | fuelExhausted
deriving Repr, DecidableEq

/-- Python iteration (`for x in v`): lists yield elements, strings yield
one-character strings, dicts yield their keys, other values raise. -/
def pyIter : JVal → Except PyErr (List JVal)
  | .arr xs => .ok xs
  | .str s => .ok (s.data.map (fun c => .str (String.mk [c])))
  | .obj fs => .ok (fs.map (fun p => .str p.1))
  | .null => .error .typeError
  | .bool _ => .error .typeError
  | .num _ => .error .typeError

/-- Model of `str(d.get(k, "")) or None`: the normalisation the ticket and comment
extractors apply to numeric foreign-key fields. -/
def strOrNone (fs : List (String × JVal)) (k : String) : Option String :=
  let s := pyStr ((lookupField fs k).getD (.str ""))
  if s = "" then none else some s

/-- Chunk type `ZendeskOrganizationChunk` as constructed by the source. -/
structure ZendeskOrganizationChunk where
  source_name : String
  entity_id : String
  name : JVal
  domain_names : JVal
  created_at : JVal
  updated_at : JVal
  details : JVal
  notes : JVal
  group_id : JVal
  shared_tickets : JVal
  shared_comments : JVal
  external_id : JVal
  archived : Bool
deriving Repr

/-- Chunk type `ZendeskUserChunk` as constructed by the source. -/
structure ZendeskUserChunk where
  source_name : String
  entity_id : String
  name : JVal
  email : JVal
  role : JVal
  time_zone : JVal
  locale : JVal
  created_at : JVal
  updated_at : JVal
  suspended : JVal
  archived : Bool
deriving Repr

/-- Chunk type `ZendeskTicketChunk` as constructed by the source. -/
structure ZendeskTicketChunk where
  source_name : String
  entity_id : String
  subject : JVal
  description : JVal
  type : JVal
  priority : JVal
  status : JVal
  tags : JVal
  requester_id : Option String
  assignee_id : Option String
  organization_id : Option String
  group_id : Option String
  created_at : JVal
  updated_at : JVal
  due_at : JVal
  via : JVal
  custom_fields : JVal
  archived : Bool
deriving Repr

/-- Chunk type `ZendeskCommentChunk` as constructed by the source. -/
structure ZendeskCommentChunk where
  source_name : String
  entity_id : String
  ticket_id : String
  author_id : Option String
  plain_body : JVal
  html_body : JVal
  public : JVal
  created_at : JVal
  attachments : JVal
  archived : Bool
deriving Repr

/-- One record of `_generate_organization_chunks`'s per-record body:
`org["id"]` raises `KeyError` when absent (`TypeError` when the record is
not a dict); every other field uses `org.get(...)` with the source's
defaults. -/
def mkOrganizationChunk (org : JVal) : Except PyErr ZendeskOrganizationChunk :=
  match org with
  | .obj fs =>
    match lookupField fs "id" with
    | none => .error (.keyError "id")
    | some idv => .ok {
        source_name := "zendesk"
        entity_id := pyStr idv
        name := (lookupField fs "name").getD .null
        domain_names := (lookupField fs "domain_names").getD (.arr [])
        created_at := (lookupField fs "created_at").getD .null
        updated_at := (lookupField fs "updated_at").getD .null
        details := (lookupField fs "details").getD .null
        notes := (lookupField fs "notes").getD .null
        group_id := (lookupField fs "group_id").getD .null
        shared_tickets := (lookupField fs "shared_tickets").getD (.bool false)
        shared_comments := (lookupField fs "shared_comments").getD (.bool false)
        external_id := (lookupField fs "external_id").getD .null
        archived := false }
  | _ => .error .typeError

/-- One record of `_generate_user_chunks`'s per-record body. -/
def mkUserChunk (user : JVal) : Except PyErr ZendeskUserChunk :=
  match user with
  | .obj fs =>
    match lookupField fs "id" with
    | none => .error (.keyError "id")
    | some idv => .ok {
        source_name := "zendesk"
        entity_id := pyStr idv
        name := (lookupField fs "name").getD .null
        email := (lookupField fs "email").getD .null
        role := (lookupField fs "role").getD .null
        time_zone := (lookupField fs "time_zone").getD .null
        locale := (lookupField fs "locale").getD .null
        created_at := (lookupField fs "created_at").getD .null
        updated_at := (lookupField fs "updated_at").getD .null
        suspended := (lookupField fs "suspended").getD (.bool false)
        archived := false }
  | _ => .error .typeError

/-- One record of `_generate_ticket_chunks`'s per-record body; the four
foreign-key fields go through `str(ticket.get(k, "")) or None`. -/
def mkTicketChunk (ticket : JVal) : Except PyErr ZendeskTicketChunk :=
  match ticket with
  | .obj fs =>
    match lookupField fs "id" with
    | none => .error (.keyError "id")
    | some idv => .ok {
        source_name := "zendesk"
        entity_id := pyStr idv
        subject := (lookupField fs "subject").getD .null
        description := (lookupField fs "description").getD .null
        type := (lookupField fs "type").getD .null
        priority := (lookupField fs "priority").getD .null
        status := (lookupField fs "status").getD .null
        tags := (lookupField fs "tags").getD (.arr [])
        requester_id := strOrNone fs "requester_id"
        assignee_id := strOrNone fs "assignee_id"
        organization_id := strOrNone fs "organization_id"
        group_id := strOrNone fs "group_id"
        created_at := (lookupField fs "created_at").getD .null
        updated_at := (lookupField fs "updated_at").getD .null
        due_at := (lookupField fs "due_at").getD .null
        via := (lookupField fs "via").getD .null
        custom_fields := (lookupField fs "custom_fields").getD (.arr [])
        archived := false }
  | _ => .error .typeError

/-- One record of `_generate_comment_chunks`'s per-record body; `tid` is
the `ticket_id` parameter (already a string, so `str(ticket_id) = tid`). -/
def mkCommentChunk (tid : String) (comment : JVal) : Except PyErr ZendeskCommentChunk :=
  match comment with
  | .obj fs =>
    match lookupField fs "id" with
    | none => .error (.keyError "id")
    | some idv => .ok {
        source_name := "zendesk"
        entity_id := pyStr idv
        ticket_id := tid
        author_id := strOrNone fs "author_id"
        plain_body := (lookupField fs "plain_body").getD .null
        html_body := (lookupField fs "html_body").getD .null
        public := (lookupField fs "public").getD (.bool false)
        created_at := (lookupField fs "created_at").getD .null
        attachments := (lookupField fs "attachments").getD (.arr [])
        archived := false }
  | _ => .error .typeError

/-- A chunk yielded by `generate_chunks` (the `BaseChunk` stream). -/
inductive Chunk where
  | org (c : ZendeskOrganizationChunk)
  | user (c : ZendeskUserChunk)
  | ticket (c : ZendeskTicketChunk)
  | comment (c : ZendeskCommentChunk)
deriving Repr

/-- Projection `source_name` of a yielded chunk. -/
def Chunk.sourceName : Chunk → String
  | .org c => c.source_name
  | .user c => c.source_name
  | .ticket c => c.source_name
  | .comment c => c.source_name

/-- Projection `entity_id` of a yielded chunk. -/
def Chunk.entityId : Chunk → String
  | .org c => c.entity_id
  | .user c => c.entity_id
  | .ticket c => c.entity_id
  | .comment c => c.entity_id

/-- Projection `archived` of a yielded chunk. -/
def Chunk.archivedFlag : Chunk → Bool
  | .org c => c.archived
  | .user c => c.archived
  | .ticket c => c.archived
  | .comment c => c.archived

/-- One decoded response body (the code types it `Dict`). -/
def Page := List (String × JVal)

/-- An HTTP response: status code and decoded JSON body. -/
structure Response where
  status : Nat
  body : Page

/-- The remote API: a pure map from URL to response (the unchanged remote
dataset a run is executed against). -/
def Remote := String → Response

/-- Model of `_get_with_auth`: perform the GET and `raise_for_status()`; any
non-2xx status raises `HTTPStatusError`, otherwise the body is returned. -/
def httpGet (remote : Remote) (u : String) : Except PyErr Page :=
  let r := remote u
  if 200 ≤ r.status ∧ r.status < 300 then .ok r.body
  else .error (.httpStatus r.status)

/-- The observable behaviour of (part of) a run: the chunks yielded in
order before any error, the URLs fetched in order, and the error the
generator raised, if any (`none` means it finished normally). -/
structure Run where
  chunks : List Chunk
  requests : List String
  err : Option PyErr
deriving Repr

/-- The empty run fragment. -/
def emptyRun : Run := ⟨[], [], none⟩

/-- Sequencing of generator fragments: if the first raised, the second
never executes (its chunks are not yielded, its URLs are not fetched). -/
def runSeq (a b : Run) : Run :=
  match a.err with
  | some _ => a
  | none => ⟨a.chunks ++ b.chunks, a.requests ++ b.requests, b.err⟩

/-- The `for record in ...: yield mk(record)` body of one page: chunks for
the records before the first failing record, and that record's error. -/
def emitRecords (mk : JVal → Except PyErr Chunk) :
    List JVal → List Chunk × Option PyErr
  | [] => ([], none)
  | r :: rs =>
    match mk r with
    | .error e => ([], some e)
    | .ok c =>
      let p := emitRecords mk rs
      (c :: p.1, p.2)

/-- The `while url:` pagination loop shared by the organization, user and
comment extractors: fetch the page, read `page.get(key, [])`, yield one
chunk per record, then continue at `page.get("next_page")`.  `fuel`
bounds the number of iterations; running out while the URL is still
truthy is the distinguished `fuelExhausted` error. -/
def extractLoop (remote : Remote) (key : String)
    (mk : JVal → Except PyErr Chunk) : Nat → JVal → Run
  | 0, url => if pyTruthy url then ⟨[], [], some .fuelExhausted⟩ else emptyRun
  | fuel + 1, url =>
    if pyTruthy url then
      match url with
      | .str u =>
        match httpGet remote u with
        | .error e => ⟨[], [u], some e⟩
        | .ok page =>
          match pyIter ((lookupField page key).getD (.arr [])) with
          | .error e => ⟨[], [u], some e⟩
          | .ok recs =>
            match emitRecords mk recs with
            | (cs, some e) => ⟨cs, [u], some e⟩
            | (cs, none) =>
              let rest :=
                extractLoop remote key mk fuel
                  ((lookupField page "next_page").getD .null)
              ⟨cs ++ rest.chunks, u :: rest.requests, rest.err⟩
      | _ => ⟨[], [], some .typeError⟩
    else emptyRun

/-- Start URL of `_generate_organization_chunks`. -/
def organizationsUrl : String :=
  "https://your_subdomain.zendesk.com/api/v2/organizations.json"

/-- Start URL of `_generate_user_chunks`. -/
def usersUrl : String :=
  "https://your_subdomain.zendesk.com/api/v2/users.json"

/-- Start URL of `_generate_ticket_chunks`. -/
def ticketsUrl : String :=
  "https://your_subdomain.zendesk.com/api/v2/tickets.json"

/-- Start URL of `_generate_comment_chunks` for one ticket. -/
def commentsUrl (tid : String) : String :=
  "https://your_subdomain.zendesk.com/api/v2/tickets/" ++ tid ++ "/comments.json"

/-- The full `_generate_comment_chunks(client, ticket_id)` walk. -/
def commentRun (remote : Remote) (cfuel : Nat) (tid : String) : Run :=
  extractLoop remote "comments" (fun r => (mkCommentChunk tid r).map Chunk.comment)
    cfuel (.str (commentsUrl tid))

/-- The orchestrator's per-ticket body over one ticket page's records:
yield the ticket chunk, then drive the comment extractor for that
ticket's `entity_id` to exhaustion, then continue with the next record. -/
def perTicketRecords (remote : Remote) (cfuel : Nat) : List JVal → Run
  | [] => emptyRun
  | r :: rs =>
    match mkTicketChunk r with
    | .error e => ⟨[], [], some e⟩
    | .ok t =>
      let cr := commentRun remote cfuel t.entity_id
      match cr.err with
      | some e => ⟨Chunk.ticket t :: cr.chunks, cr.requests, some e⟩
      | none =>
        let rest := perTicketRecords remote cfuel rs
        ⟨Chunk.ticket t :: (cr.chunks ++ rest.chunks),
         cr.requests ++ rest.requests, rest.err⟩

/-- The ticket pagination loop of `generate_chunks`: like `extractLoop`
for key `"tickets"`, except that each yielded ticket chunk is immediately
followed by that ticket's full comment walk. -/
def ticketsLoop (remote : Remote) (cfuel : Nat) : Nat → JVal → Run
  | 0, url => if pyTruthy url then ⟨[], [], some .fuelExhausted⟩ else emptyRun
  | fuel + 1, url =>
    if pyTruthy url then
      match url with
      | .str u =>
        match httpGet remote u with
        | .error e => ⟨[], [u], some e⟩
        | .ok page =>
          match pyIter ((lookupField page "tickets").getD (.arr [])) with
          | .error e => ⟨[], [u], some e⟩
          | .ok recs =>
            let pr := perTicketRecords remote cfuel recs
            match pr.err with
            | some e => ⟨pr.chunks, u :: pr.requests, some e⟩
            | none =>
              let rest :=
                ticketsLoop remote cfuel fuel
                  ((lookupField page "next_page").getD .null)
              ⟨pr.chunks ++ rest.chunks, u :: (pr.requests ++ rest.requests),
               rest.err⟩
      | _ => ⟨[], [], some .typeError⟩
    else emptyRun

/-- The organization phase of `generate_chunks`. -/
def orgPhase (remote : Remote) (fuel : Nat) : Run :=
  extractLoop remote "organizations"
    (fun r => (mkOrganizationChunk r).map Chunk.org) fuel (.str organizationsUrl)

/-- The user phase of `generate_chunks`. -/
def userPhase (remote : Remote) (fuel : Nat) : Run :=
  extractLoop remote "users"
    (fun r => (mkUserChunk r).map Chunk.user) fuel (.str usersUrl)

/-- The ticket-with-comments phase of `generate_chunks`. -/
def ticketPhase (remote : Remote) (fuel : Nat) : Run :=
  ticketsLoop remote fuel fuel (.str ticketsUrl)

/-- Model of `generate_chunks`: organizations, then users, then tickets
interleaved with their comments, against the remote dataset `remote`. -/
def generate_chunks (remote : Remote) (fuel : Nat) : Run :=
  runSeq (orgPhase remote fuel) (runSeq (userPhase remote fuel) (ticketPhase remote fuel))

/-! ### Concrete fixtures (used to instantiate theorems with hypotheses) -/

/-- The organization per-record constructor as a `Chunk` producer (the
function the organization phase passes to the pagination loop). -/
def mkOrgChunkF : JVal → Except PyErr Chunk :=
  fun r => (mkOrganizationChunk r).map Chunk.org

/-- The ticket chunk built from the record `{"id": 7}` (all optional
fields absent). -/
def tNoFK : ZendeskTicketChunk :=
  { source_name := "zendesk", entity_id := "7", subject := .null,
    description := .null, type := .null, priority := .null, status := .null,
    tags := .arr [], requester_id := none, assignee_id := none,
    organization_id := none, group_id := none, created_at := .null,
    updated_at := .null, due_at := .null, via := .null,
    custom_fields := .arr [], archived := false }

/-- The organization chunk built from the record `{"id": 7}`. -/
def oNoOpt : ZendeskOrganizationChunk :=
  { source_name := "zendesk", entity_id := "7", name := .null,
    domain_names := .arr [], created_at := .null, updated_at := .null,
    details := .null, notes := .null, group_id := .null,
    shared_tickets := .bool false, shared_comments := .bool false,
    external_id := .null, archived := false }

/-- The comment chunk built from the record `{"id": 9}` for ticket 42. -/
def cNoOpt : ZendeskCommentChunk :=
  { source_name := "zendesk", entity_id := "9", ticket_id := "42",
    author_id := none, plain_body := .null, html_body := .null,
    public := .bool false, created_at := .null, attachments := .arr [],
    archived := false }

/-- The ticket chunk built from the record `{"id": 7, "requester_id": 0}`. -/
def tZeroFK : ZendeskTicketChunk := { tNoFK with requester_id := some "0" }

/-- The organization chunk built from the record `{"id": 1}`. -/
def orgOne : ZendeskOrganizationChunk := { oNoOpt with entity_id := "1" }

/-- A remote whose organization listing has one record and a null
`next_page`; every other page body is empty. -/
def remoteOrgOnly : Remote := fun u =>
  if u = organizationsUrl then
    ⟨200, [("organizations", .arr [.obj [("id", .num 1)]]), ("next_page", .null)]⟩
  else ⟨200, []⟩

/-- A pointwise copy of `remoteOrgOnly`, syntactically distinct but
answering every URL identically. -/
def remoteOrgOnlyB : Remote := fun u =>
  ⟨(remoteOrgOnly u).status, (remoteOrgOnly u).body⟩

/-- A remote that answers every URL with one empty record page whose
`next_page` is null. -/
def remoteOnePage : Remote := fun _ =>
  ⟨200, [("organizations", .arr []), ("next_page", .null)]⟩

/-- A remote that answers every URL with an empty JSON object (no record
array, no `next_page`). -/
def remoteEmptyPage : Remote := fun _ => ⟨200, []⟩

/-- A remote that rejects every request with HTTP 401. -/
def remoteAuthFail : Remote := fun _ => ⟨401, []⟩

/-- An organization page whose single record has no `"id"` key. -/
def pageNoId : Page := [("organizations", .arr [.obj [("name", .str "acme")]])]

/-- A remote serving `pageNoId` as the organization listing. -/
def remoteNoId : Remote := fun u =>
  if u = organizationsUrl then ⟨200, pageNoId⟩ else ⟨200, []⟩

/-! ### Helper lemmas -/

theorem emitRecords_mem (mk : JVal → Except PyErr Chunk) :
    ∀ rs c, c ∈ (emitRecords mk rs).1 → ∃ r, mk r = .ok c := by
  intro rs
  induction rs with
  | nil => intro c hc; simp [emitRecords] at hc
  | cons r rs ih =>
    intro c hc
    unfold emitRecords at hc
    cases hmk : mk r with
    | error e => rw [hmk] at hc; simp at hc
    | ok c' =>
      rw [hmk] at hc
      simp at hc
      rcases hc with hc | hc
      · exact ⟨r, by rw [hmk, hc]⟩
      · exact ih c hc

theorem extractLoop_mem (remote : Remote) (key : String)
    (mk : JVal → Except PyErr Chunk) :
    ∀ fuel url c, c ∈ (extractLoop remote key mk fuel url).chunks →
      ∃ r, mk r = .ok c := by
  intro fuel
  induction fuel with
  | zero =>
    intro url c hc
    unfold extractLoop at hc
    split at hc <;> simp [emptyRun] at hc
  | succ n ih =>
    intro url c hc
    unfold extractLoop at hc
    split at hc
    · split at hc
      · rename_i u
        split at hc
        · simp at hc
        · rename_i page _
          split at hc
          · simp at hc
          · rename_i recs _
            split at hc
            · rename_i cs e heq
              simp at hc
              have : c ∈ (emitRecords mk recs).1 := by rw [heq]; exact hc
              exact emitRecords_mem mk recs c this
            · rename_i cs heq
              simp at hc
              rcases hc with hc | hc
              · have : c ∈ (emitRecords mk recs).1 := by rw [heq]; exact hc
                exact emitRecords_mem mk recs c this
              · exact ih _ c hc
      · simp at hc
    · simp [emptyRun] at hc

/-- Turn a pointwise image property into an explicit `map` decomposition. -/
theorem list_map_shape {α : Type} (f : α → Chunk) (Q : α → Prop) :
    ∀ l : List Chunk, (∀ c ∈ l, ∃ a, c = f a ∧ Q a) →
      ∃ as : List α, l = as.map f ∧ ∀ a ∈ as, Q a := by
  intro l
  induction l with
  | nil => intro _; exact ⟨[], rfl, by simp⟩
  | cons c l ih =>
    intro h
    obtain ⟨a, hca, hQ⟩ := h c (by simp)
    obtain ⟨as, hl, hQs⟩ := ih (fun c' hc' => h c' (by simp [hc']))
    refine ⟨a :: as, ?_, ?_⟩
    · simp [hca, hl]
    · intro a' ha'
      rcases List.mem_cons.mp ha' with h' | h'
      · rw [h']; exact hQ
      · exact hQs a' h'

theorem mkCommentChunk_ticket_id (tid : String) (r : JVal)
    (c : ZendeskCommentChunk) (h : mkCommentChunk tid r = .ok c) :
    c.ticket_id = tid := by
  unfold mkCommentChunk at h
  split at h
  · split at h
    · exact absurd h (by simp)
    · cases h; rfl
  · exact absurd h (by simp)

theorem commentRun_shape (remote : Remote) (cfuel : Nat) (tid : String) :
    ∃ cs : List ZendeskCommentChunk,
      (commentRun remote cfuel tid).chunks = cs.map Chunk.comment ∧
      ∀ cc ∈ cs, cc.ticket_id = tid := by
  apply list_map_shape Chunk.comment (fun cc => cc.ticket_id = tid)
  intro c hc
  obtain ⟨r, hr⟩ := extractLoop_mem _ _ _ _ _ c hc
  cases hmk : mkCommentChunk tid r with
  | error e => rw [hmk] at hr; simp [Except.map] at hr
  | ok cc =>
    rw [hmk] at hr
    simp [Except.map] at hr
    exact ⟨cc, hr.symm, mkCommentChunk_ticket_id tid r cc hmk⟩

theorem perTicketRecords_shape (remote : Remote) (cfuel : Nat) :
    ∀ rs, ∃ ps : List (ZendeskTicketChunk × List ZendeskCommentChunk),
      (perTicketRecords remote cfuel rs).chunks
        = (ps.map fun p => Chunk.ticket p.1 :: p.2.map Chunk.comment).flatten ∧
      ∀ p ∈ ps, ∀ cc ∈ p.2, cc.ticket_id = p.1.entity_id := by
  intro rs
  induction rs with
  | nil => exact ⟨[], by simp [perTicketRecords, emptyRun], by simp⟩
  | cons r rs ih =>
    cases hmk : mkTicketChunk r with
    | error e =>
      refine ⟨[], ?_, by simp⟩
      unfold perTicketRecords
      rw [hmk]
      simp
    | ok t =>
      obtain ⟨cs, hcs, htid⟩ := commentRun_shape remote cfuel t.entity_id
      cases herr : (commentRun remote cfuel t.entity_id).err with
      | some e =>
        refine ⟨[(t, cs)], ?_, ?_⟩
        · unfold perTicketRecords
          rw [hmk]
          simp [herr, hcs]
        · intro p hp cc hcc
          simp at hp
          subst hp
          exact htid cc hcc
      | none =>
        obtain ⟨ps, hps, hq⟩ := ih
        refine ⟨(t, cs) :: ps, ?_, ?_⟩
        · unfold perTicketRecords
          rw [hmk]
          simp [herr, hcs, hps]
        · intro p hp cc hcc
          rcases List.mem_cons.mp hp with h' | h'
          · subst h'; exact htid cc hcc
          · exact hq p h' cc hcc

theorem ticketsLoop_shape (remote : Remote) (cfuel : Nat) :
    ∀ fuel url, ∃ ps : List (ZendeskTicketChunk × List ZendeskCommentChunk),
      (ticketsLoop remote cfuel fuel url).chunks
        = (ps.map fun p => Chunk.ticket p.1 :: p.2.map Chunk.comment).flatten ∧
      ∀ p ∈ ps, ∀ cc ∈ p.2, cc.ticket_id = p.1.entity_id := by
  intro fuel
  induction fuel with
  | zero =>
    intro url
    refine ⟨[], ?_, by simp⟩
    unfold ticketsLoop
    split <;> simp [emptyRun]
  | succ n ih =>
    intro url
    by_cases htr : pyTruthy url = true
    · cases url with
      | str u =>
        cases hget : httpGet remote u with
        | error e =>
          refine ⟨[], ?_, by simp⟩
          simp [ticketsLoop, htr, hget]
        | ok page =>
          cases hit : pyIter ((lookupField page "tickets").getD (.arr [])) with
          | error e =>
            refine ⟨[], ?_, by simp⟩
            simp [ticketsLoop, htr, hget, hit]
          | ok recs =>
            obtain ⟨ps₁, hps₁, hq₁⟩ := perTicketRecords_shape remote cfuel recs
            cases herr : (perTicketRecords remote cfuel recs).err with
            | some e =>
              refine ⟨ps₁, ?_, hq₁⟩
              simp [ticketsLoop, htr, hget, hit, herr, hps₁]
            | none =>
              obtain ⟨ps₂, hps₂, hq₂⟩ :=
                ih ((lookupField page "next_page").getD .null)
              refine ⟨ps₁ ++ ps₂, ?_, ?_⟩
              · simp [ticketsLoop, htr, hget, hit, herr, hps₁, hps₂]
              · intro p hp cc hcc
                rcases List.mem_append.mp hp with h' | h'
                · exact hq₁ p h' cc hcc
                · exact hq₂ p h' cc hcc
      | null => simp [pyTruthy] at htr
      | bool b =>
        refine ⟨[], ?_, by simp⟩
        simp [ticketsLoop, htr]
      | num m =>
        refine ⟨[], ?_, by simp⟩
        simp [ticketsLoop, htr]
      | arr xs =>
        refine ⟨[], ?_, by simp⟩
        simp [ticketsLoop, htr]
      | obj fs =>
        refine ⟨[], ?_, by simp⟩
        simp [ticketsLoop, htr]
    · refine ⟨[], ?_, by simp⟩
      simp [ticketsLoop, htr, emptyRun]

theorem orgPhase_shape (remote : Remote) (fuel : Nat) :
    ∃ os : List ZendeskOrganizationChunk,
      (orgPhase remote fuel).chunks = os.map Chunk.org := by
  have h : ∀ c ∈ (orgPhase remote fuel).chunks,
      ∃ a, c = Chunk.org a ∧ True := by
    intro c hc
    obtain ⟨r, hr⟩ := extractLoop_mem _ _ _ _ _ c hc
    cases hmk : mkOrganizationChunk r with
    | error e => rw [hmk] at hr; simp [Except.map] at hr
    | ok oc =>
      rw [hmk] at hr
      simp [Except.map] at hr
      exact ⟨oc, hr.symm, trivial⟩
  obtain ⟨os, hos, _⟩ :=
    list_map_shape Chunk.org (fun _ => True) (orgPhase remote fuel).chunks h
  exact ⟨os, hos⟩

theorem userPhase_shape (remote : Remote) (fuel : Nat) :
    ∃ us : List ZendeskUserChunk,
      (userPhase remote fuel).chunks = us.map Chunk.user := by
  have h : ∀ c ∈ (userPhase remote fuel).chunks,
      ∃ a, c = Chunk.user a ∧ True := by
    intro c hc
    obtain ⟨r, hr⟩ := extractLoop_mem _ _ _ _ _ c hc
    cases hmk : mkUserChunk r with
    | error e => rw [hmk] at hr; simp [Except.map] at hr
    | ok uc =>
      rw [hmk] at hr
      simp [Except.map] at hr
      exact ⟨uc, hr.symm, trivial⟩
  obtain ⟨us, hus, _⟩ :=
    list_map_shape Chunk.user (fun _ => True) (userPhase remote fuel).chunks h
  exact ⟨us, hus⟩

theorem generateShape (remote : Remote) (fuel : Nat) :
    ∃ (os : List ZendeskOrganizationChunk) (us : List ZendeskUserChunk)
      (ps : List (ZendeskTicketChunk × List ZendeskCommentChunk)),
      (generate_chunks remote fuel).chunks =
        os.map Chunk.org ++ us.map Chunk.user ++
          (ps.map fun p => Chunk.ticket p.1 :: p.2.map Chunk.comment).flatten ∧
      ∀ p ∈ ps, ∀ cc ∈ p.2, cc.ticket_id = p.1.entity_id := by
  obtain ⟨os, hos⟩ := orgPhase_shape remote fuel
  obtain ⟨us, hus⟩ := userPhase_shape remote fuel
  obtain ⟨ps, hps, hq⟩ := ticketsLoop_shape remote fuel fuel (.str ticketsUrl)
  unfold generate_chunks runSeq
  cases horg : (orgPhase remote fuel).err with
  | some e =>
    refine ⟨os, [], [], ?_, by simp⟩
    simp [horg, hos]
  | none =>
    cases huser : (userPhase remote fuel).err with
    | some e =>
      refine ⟨os, us, [], ?_, by simp⟩
      simp [horg, huser, hos, hus]
    | none =>
      refine ⟨os, us, ps, ?_, hq⟩
      simp [horg, huser, hos, hus]
      exact hps

theorem strOrNone_absent (fs : List (String × JVal)) (k : String)
    (h : lookupField fs k = none) : strOrNone fs k = none := by
  unfold strOrNone
  rw [h]
  rfl

theorem strOrNone_zero (fs : List (String × JVal)) (k : String)
    (h : lookupField fs k = some (.num 0)) : strOrNone fs k = some "0" := by
  unfold strOrNone
  rw [h]
  rfl

theorem pyStr_num (n : Int) : pyStr (.num n) = toString n := rfl

theorem mkOrganizationChunk_ok (fs : List (String × JVal))
    (ch : ZendeskOrganizationChunk) (h : mkOrganizationChunk (.obj fs) = .ok ch) :
    ch.source_name = "zendesk" ∧ ch.archived = false ∧
    ch.domain_names = (lookupField fs "domain_names").getD (.arr []) ∧
    ∃ idv, lookupField fs "id" = some idv ∧ ch.entity_id = pyStr idv := by
  cases hid : lookupField fs "id" with
  | none => simp [mkOrganizationChunk, hid] at h
  | some idv =>
    simp [mkOrganizationChunk, hid] at h
    subst h
    exact ⟨rfl, rfl, rfl, idv, rfl, rfl⟩

theorem mkUserChunk_ok (fs : List (String × JVal))
    (ch : ZendeskUserChunk) (h : mkUserChunk (.obj fs) = .ok ch) :
    ch.source_name = "zendesk" ∧ ch.archived = false ∧
    ∃ idv, lookupField fs "id" = some idv ∧ ch.entity_id = pyStr idv := by
  cases hid : lookupField fs "id" with
  | none => simp [mkUserChunk, hid] at h
  | some idv =>
    simp [mkUserChunk, hid] at h
    subst h
    exact ⟨rfl, rfl, idv, rfl, rfl⟩

theorem mkTicketChunk_ok (fs : List (String × JVal))
    (ch : ZendeskTicketChunk) (h : mkTicketChunk (.obj fs) = .ok ch) :
    ch.source_name = "zendesk" ∧ ch.archived = false ∧
    ch.requester_id = strOrNone fs "requester_id" ∧
    ch.assignee_id = strOrNone fs "assignee_id" ∧
    ch.organization_id = strOrNone fs "organization_id" ∧
    ch.group_id = strOrNone fs "group_id" ∧
    ch.tags = (lookupField fs "tags").getD (.arr []) ∧
    ch.custom_fields = (lookupField fs "custom_fields").getD (.arr []) ∧
    ∃ idv, lookupField fs "id" = some idv ∧ ch.entity_id = pyStr idv := by
  cases hid : lookupField fs "id" with
  | none => simp [mkTicketChunk, hid] at h
  | some idv =>
    simp [mkTicketChunk, hid] at h
    subst h
    exact ⟨rfl, rfl, rfl, rfl, rfl, rfl, rfl, rfl, idv, rfl, rfl⟩

theorem mkCommentChunk_ok (tid : String) (fs : List (String × JVal))
    (ch : ZendeskCommentChunk) (h : mkCommentChunk tid (.obj fs) = .ok ch) :
    ch.source_name = "zendesk" ∧ ch.archived = false ∧ ch.ticket_id = tid ∧
    ch.author_id = strOrNone fs "author_id" ∧
    ch.attachments = (lookupField fs "attachments").getD (.arr []) ∧
    ∃ idv, lookupField fs "id" = some idv ∧ ch.entity_id = pyStr idv := by
  cases hid : lookupField fs "id" with
  | none => simp [mkCommentChunk, hid] at h
  | some idv =>
    simp [mkCommentChunk, hid] at h
    subst h
    exact ⟨rfl, rfl, rfl, rfl, rfl, idv, rfl, rfl⟩

theorem mkOrganizationChunk_objOf (r : JVal) (ch : ZendeskOrganizationChunk)
    (h : mkOrganizationChunk r = .ok ch) : ∃ fs, r = .obj fs := by
  cases r <;> simp [mkOrganizationChunk] at h ⊢

theorem mkUserChunk_objOf (r : JVal) (ch : ZendeskUserChunk)
    (h : mkUserChunk r = .ok ch) : ∃ fs, r = .obj fs := by
  cases r <;> simp [mkUserChunk] at h ⊢

theorem mkTicketChunk_objOf (r : JVal) (ch : ZendeskTicketChunk)
    (h : mkTicketChunk r = .ok ch) : ∃ fs, r = .obj fs := by
  cases r <;> simp [mkTicketChunk] at h ⊢

theorem mkCommentChunk_objOf (tid : String) (r : JVal) (ch : ZendeskCommentChunk)
    (h : mkCommentChunk tid r = .ok ch) : ∃ fs, r = .obj fs := by
  cases r <;> simp [mkCommentChunk] at h ⊢

theorem extractLoop_null (remote : Remote) (key : String)
    (mk : JVal → Except PyErr Chunk) :
    ∀ f, extractLoop remote key mk f .null = emptyRun := by
  intro f
  cases f <;> simp [extractLoop, pyTruthy]

theorem ticketsLoop_null (remote : Remote) (cfuel : Nat) :
    ∀ f, ticketsLoop remote cfuel f .null = emptyRun := by
  intro f
  cases f <;> simp [ticketsLoop, pyTruthy]

theorem runSeq_mem (a b : Run) (c : Chunk) (hc : c ∈ (runSeq a b).chunks) :
    c ∈ a.chunks ∨ c ∈ b.chunks := by
  unfold runSeq at hc
  cases ha : a.err with
  | some e => rw [ha] at hc; exact .inl hc
  | none => rw [ha] at hc; simp at hc; exact hc

theorem commentRun_mem (remote : Remote) (cfuel : Nat) (tid : String)
    (c : Chunk) (hc : c ∈ (commentRun remote cfuel tid).chunks) :
    ∃ r cc, mkCommentChunk tid r = .ok cc ∧ c = .comment cc := by
  obtain ⟨r, hr⟩ := extractLoop_mem _ _ _ _ _ c hc
  cases hmk : mkCommentChunk tid r with
  | error e => rw [hmk] at hr; simp [Except.map] at hr
  | ok cc =>
    rw [hmk] at hr
    simp [Except.map] at hr
    exact ⟨r, cc, hmk, hr.symm⟩

theorem perTicketRecords_mem (remote : Remote) (cfuel : Nat) :
    ∀ rs c, c ∈ (perTicketRecords remote cfuel rs).chunks →
      (∃ r t, mkTicketChunk r = .ok t ∧ c = .ticket t) ∨
      (∃ tid r cc, mkCommentChunk tid r = .ok cc ∧ c = .comment cc) := by
  intro rs
  induction rs with
  | nil => intro c hc; simp [perTicketRecords, emptyRun] at hc
  | cons r rs ih =>
    intro c hc
    cases hmk : mkTicketChunk r with
    | error e =>
      unfold perTicketRecords at hc
      rw [hmk] at hc
      simp at hc
    | ok t =>
      unfold perTicketRecords at hc
      rw [hmk] at hc
      cases herr : (commentRun remote cfuel t.entity_id).err with
      | some e =>
        simp [herr] at hc
        rcases hc with hc | hc
        · exact .inl ⟨r, t, hmk, hc⟩
        · obtain ⟨r', cc, hmk', hcc⟩ := commentRun_mem remote cfuel _ c hc
          exact .inr ⟨t.entity_id, r', cc, hmk', hcc⟩
      | none =>
        simp [herr] at hc
        rcases hc with hc | hc | hc
        · exact .inl ⟨r, t, hmk, hc⟩
        · obtain ⟨r', cc, hmk', hcc⟩ := commentRun_mem remote cfuel _ c hc
          exact .inr ⟨t.entity_id, r', cc, hmk', hcc⟩
        · exact ih c hc

theorem ticketsLoop_mem (remote : Remote) (cfuel : Nat) :
    ∀ fuel url c, c ∈ (ticketsLoop remote cfuel fuel url).chunks →
      (∃ r t, mkTicketChunk r = .ok t ∧ c = .ticket t) ∨
      (∃ tid r cc, mkCommentChunk tid r = .ok cc ∧ c = .comment cc) := by
  intro fuel
  induction fuel with
  | zero =>
    intro url c hc
    unfold ticketsLoop at hc
    split at hc <;> simp [emptyRun] at hc
  | succ n ih =>
    intro url c hc
    by_cases htr : pyTruthy url = true
    · cases url with
      | str u =>
        cases hget : httpGet remote u with
        | error e => simp [ticketsLoop, htr, hget] at hc
        | ok page =>
          cases hit : pyIter ((lookupField page "tickets").getD (.arr [])) with
          | error e => simp [ticketsLoop, htr, hget, hit] at hc
          | ok recs =>
            cases herr : (perTicketRecords remote cfuel recs).err with
            | some e =>
              simp [ticketsLoop, htr, hget, hit, herr] at hc
              exact perTicketRecords_mem remote cfuel recs c hc
            | none =>
              simp [ticketsLoop, htr, hget, hit, herr] at hc
              rcases hc with hc | hc
              · exact perTicketRecords_mem remote cfuel recs c hc
              · exact ih _ c hc
      | null => simp [pyTruthy] at htr
      | bool b => simp [ticketsLoop, htr] at hc
      | num m => simp [ticketsLoop, htr] at hc
      | arr xs => simp [ticketsLoop, htr] at hc
      | obj fs => simp [ticketsLoop, htr] at hc
    · simp [ticketsLoop, htr, emptyRun] at hc

theorem generate_chunks_mem (remote : Remote) (fuel : Nat) (c : Chunk)
    (hc : c ∈ (generate_chunks remote fuel).chunks) :
    (∃ r oc, mkOrganizationChunk r = .ok oc ∧ c = .org oc) ∨
    (∃ r uc, mkUserChunk r = .ok uc ∧ c = .user uc) ∨
    (∃ r t, mkTicketChunk r = .ok t ∧ c = .ticket t) ∨
    (∃ tid r cc, mkCommentChunk tid r = .ok cc ∧ c = .comment cc) := by
  unfold generate_chunks at hc
  rcases runSeq_mem _ _ _ hc with h | h
  · unfold orgPhase at h
    obtain ⟨r, hr⟩ := extractLoop_mem _ _ _ _ _ c h
    cases hmk : mkOrganizationChunk r with
    | error e => rw [hmk] at hr; simp [Except.map] at hr
    | ok oc =>
      rw [hmk] at hr
      simp [Except.map] at hr
      exact .inl ⟨r, oc, hmk, hr.symm⟩
  · rcases runSeq_mem _ _ _ h with h' | h'
    · unfold userPhase at h'
      obtain ⟨r, hr⟩ := extractLoop_mem _ _ _ _ _ c h'
      cases hmk : mkUserChunk r with
      | error e => rw [hmk] at hr; simp [Except.map] at hr
      | ok uc =>
        rw [hmk] at hr
        simp [Except.map] at hr
        exact .inr (.inl ⟨r, uc, hmk, hr.symm⟩)
    · unfold ticketPhase at h'
      rcases ticketsLoop_mem remote fuel fuel _ c h' with h'' | h''
      · exact .inr (.inr (.inl h''))
      · exact .inr (.inr (.inr h''))

/-! ### Claim theorems -/

/-- C1, counterexample: the claim says a ticket whose `requester_id` has
the numeric value 0 yields the absence marker (`none`), "not the string
\"0\"".  On the record `{"id": 7, "requester_id": 0}` the code computes
`str(ticket.get("requester_id", "")) or None` = `str(0) or None` =
`"0"`, which is truthy, so the chunk carries `some "0"`, not `none`. -/
theorem zendesk_C1_counterexample :
    (mkTicketChunk (.obj [("id", .num 7), ("requester_id", .num 0)])).map
        (fun ch => ch.requester_id) = .ok (some "0") ∧
    (some "0" : Option String) ≠ none := ⟨rfl, by decide⟩

/-- C1, amended: for ticket records, a `requester_id` / `assignee_id` /
`organization_id` / `group_id` that is absent from the payload becomes
the absence marker `none`, but the numeric value 0 is stringified like
any other number and becomes the string `"0"`; likewise a comment
record's `author_id`. -/
theorem zendesk_C1_amended :
    (∀ fs ch, mkTicketChunk (.obj fs) = .ok ch →
      ((lookupField fs "requester_id" = none → ch.requester_id = none) ∧
       (lookupField fs "requester_id" = some (.num 0) → ch.requester_id = some "0") ∧
       (lookupField fs "assignee_id" = none → ch.assignee_id = none) ∧
       (lookupField fs "assignee_id" = some (.num 0) → ch.assignee_id = some "0") ∧
       (lookupField fs "organization_id" = none → ch.organization_id = none) ∧
       (lookupField fs "organization_id" = some (.num 0) → ch.organization_id = some "0") ∧
       (lookupField fs "group_id" = none → ch.group_id = none) ∧
       (lookupField fs "group_id" = some (.num 0) → ch.group_id = some "0"))) ∧
    (∀ tid fs ch, mkCommentChunk tid (.obj fs) = .ok ch →
      ((lookupField fs "author_id" = none → ch.author_id = none) ∧
       (lookupField fs "author_id" = some (.num 0) → ch.author_id = some "0"))) := by
  constructor
  · intro fs ch h
    obtain ⟨_, _, hreq, hass, horg, hgrp, _, _, _⟩ := mkTicketChunk_ok fs ch h
    refine ⟨fun hl => ?_, fun hl => ?_, fun hl => ?_, fun hl => ?_,
            fun hl => ?_, fun hl => ?_, fun hl => ?_, fun hl => ?_⟩
    · rw [hreq]; exact strOrNone_absent fs _ hl
    · rw [hreq]; exact strOrNone_zero fs _ hl
    · rw [hass]; exact strOrNone_absent fs _ hl
    · rw [hass]; exact strOrNone_zero fs _ hl
    · rw [horg]; exact strOrNone_absent fs _ hl
    · rw [horg]; exact strOrNone_zero fs _ hl
    · rw [hgrp]; exact strOrNone_absent fs _ hl
    · rw [hgrp]; exact strOrNone_zero fs _ hl
  · intro tid fs ch h
    obtain ⟨_, _, _, hauth, _, _⟩ := mkCommentChunk_ok tid fs ch h
    exact ⟨fun hl => by rw [hauth]; exact strOrNone_absent fs _ hl,
           fun hl => by rw [hauth]; exact strOrNone_zero fs _ hl⟩

/-- C1, witness: the amended theorem applied to the concrete records
`{"id": 7}` (absent foreign keys → `none`) and
`{"id": 7, "requester_id": 0}` (zero → the string `"0"`). -/
theorem zendesk_C1_witness :
    tNoFK.requester_id = none ∧ tZeroFK.requester_id = some "0" :=
  ⟨(zendesk_C1_amended.1 [("id", .num 7)] tNoFK rfl).1 rfl,
   (zendesk_C1_amended.1 [("id", .num 7), ("requester_id", .num 0)]
      tZeroFK rfl).2.1 rfl⟩

/-- C2: every chunk sequence produced by `generate_chunks` has the shape
organizations, then users, then for each ticket the ticket chunk
immediately followed by that ticket's comment chunks before the next
ticket chunk; and on an error-free run the sequence is exactly the
organization phase, then the user phase, then the ticket/comment
phase. -/
theorem zendesk_C2 (remote : Remote) (fuel : Nat) :
    (∃ (os : List ZendeskOrganizationChunk) (us : List ZendeskUserChunk)
        (ps : List (ZendeskTicketChunk × List ZendeskCommentChunk)),
        (generate_chunks remote fuel).chunks =
          os.map Chunk.org ++ us.map Chunk.user ++
            (ps.map fun p => Chunk.ticket p.1 :: p.2.map Chunk.comment).flatten) ∧
    ((generate_chunks remote fuel).err = none →
      (generate_chunks remote fuel).chunks =
        (orgPhase remote fuel).chunks ++
          ((userPhase remote fuel).chunks ++ (ticketPhase remote fuel).chunks)) := by
  constructor
  · obtain ⟨os, us, ps, h, _⟩ := generateShape remote fuel
    exact ⟨os, us, ps, h⟩
  · intro he
    unfold generate_chunks runSeq at he ⊢
    cases horg : (orgPhase remote fuel).err with
    | some e => simp [horg] at he
    | none =>
      cases huser : (userPhase remote fuel).err with
      | some e => simp [horg, huser] at he
      | none => simp [horg, huser]

/-- C2, witness: the error-free decomposition evaluated on a concrete
remote with one organization. -/
theorem zendesk_C2_witness :
    (generate_chunks remoteOrgOnly 2).chunks =
      (orgPhase remoteOrgOnly 2).chunks ++
        ((userPhase remoteOrgOnly 2).chunks ++ (ticketPhase remoteOrgOnly 2).chunks) :=
  (zendesk_C2 remoteOrgOnly 2).2 rfl

/-- C3: the chunk sequence decomposes into organizations, users, and
ticket groups in which every comment chunk emitted after a ticket chunk
and before the next ticket chunk carries that ticket's `entity_id` as
its `ticket_id`. -/
theorem zendesk_C3 (remote : Remote) (fuel : Nat) :
    ∃ (os : List ZendeskOrganizationChunk) (us : List ZendeskUserChunk)
      (ps : List (ZendeskTicketChunk × List ZendeskCommentChunk)),
      (generate_chunks remote fuel).chunks =
        os.map Chunk.org ++ us.map Chunk.user ++
          (ps.map fun p => Chunk.ticket p.1 :: p.2.map Chunk.comment).flatten ∧
      ∀ p ∈ ps, ∀ cc ∈ p.2, cc.ticket_id = p.1.entity_id :=
  generateShape remote fuel

/-- C9: `generate_chunks` is a deterministic function of the remote
dataset: two runs against remotes that answer every URL identically
produce identical runs (same chunks in the same order, same requests,
same outcome). -/
theorem zendesk_C9 (r₁ r₂ : Remote) (fuel : Nat) (h : ∀ u, r₁ u = r₂ u) :
    generate_chunks r₁ fuel = generate_chunks r₂ fuel := by
  have he : r₁ = r₂ := funext h
  rw [he]

/-- C9, witness: two syntactically different but pointwise-equal remotes
produce the same run. -/
theorem zendesk_C9_witness :
    generate_chunks remoteOrgOnly 2 = generate_chunks remoteOrgOnlyB 2 :=
  zendesk_C9 remoteOrgOnly remoteOrgOnlyB 2 (fun _ => rfl)

/-- C4: if the fetched page at `u` has no `next_page` field or a null
one, the pagination loop terminates after processing that page: the
result is independent of any extra fuel (one iteration suffices), and
the only URL the extractor fetches is `u` itself.  This holds for the
generic extractor loop (organizations, users, comments) and for the
ticket loop. -/
theorem zendesk_C4 (remote : Remote) (key : String) (mk : JVal → Except PyErr Chunk)
    (cfuel fuel : Nat) (u : String) (page : Page)
    (hu : u ≠ "")
    (hget : httpGet remote u = .ok page)
    (hnext : (lookupField page "next_page").getD .null = .null) :
    extractLoop remote key mk (fuel + 1) (.str u)
      = extractLoop remote key mk 1 (.str u) ∧
    (extractLoop remote key mk (fuel + 1) (.str u)).requests = [u] ∧
    ticketsLoop remote cfuel (fuel + 1) (.str u)
      = ticketsLoop remote cfuel 1 (.str u) := by
  have htr : pyTruthy (.str u) = true := by simp [pyTruthy, hu]
  refine ⟨?_, ?_, ?_⟩
  · cases hit : pyIter ((lookupField page key).getD (.arr [])) with
    | error e => simp [extractLoop, htr, hget, hit]
    | ok recs =>
      rcases hemit : emitRecords mk recs with ⟨cs, oe⟩
      cases oe with
      | some e => simp [extractLoop, htr, hget, hit, hemit]
      | none =>
        simp [extractLoop, htr, hget, hit, hemit, hnext, extractLoop_null, emptyRun, pyTruthy]
  · cases hit : pyIter ((lookupField page key).getD (.arr [])) with
    | error e => simp [extractLoop, htr, hget, hit, hu]
    | ok recs =>
      rcases hemit : emitRecords mk recs with ⟨cs, oe⟩
      cases oe with
      | some e => simp [extractLoop, htr, hget, hit, hemit, hu]
      | none =>
        simp [extractLoop, htr, hget, hit, hemit, hnext, extractLoop_null, emptyRun,
          pyTruthy, hu]
  · cases hit : pyIter ((lookupField page "tickets").getD (.arr [])) with
    | error e => simp [ticketsLoop, htr, hget, hit]
    | ok recs =>
      cases herr : (perTicketRecords remote cfuel recs).err with
      | some e => simp [ticketsLoop, htr, hget, hit, herr]
      | none =>
        simp [ticketsLoop, htr, hget, hit, herr, hnext, ticketsLoop_null, emptyRun, pyTruthy]

/-- C4, witness: one page with a null `next_page` is processed with one
fetch, and extra fuel changes nothing. -/
theorem zendesk_C4_witness :
    extractLoop remoteOnePage "organizations" mkOrgChunkF 4 (.str "x")
      = extractLoop remoteOnePage "organizations" mkOrgChunkF 1 (.str "x") ∧
    (extractLoop remoteOnePage "organizations" mkOrgChunkF 4 (.str "x")).requests = ["x"] ∧
    ticketsLoop remoteOnePage 1 4 (.str "x") = ticketsLoop remoteOnePage 1 1 (.str "x") :=
  zendesk_C4 remoteOnePage "organizations" mkOrgChunkF 1 3 "x"
    [("organizations", .arr []), ("next_page", .null)] (by decide) rfl rfl

/-- C5: a fetched page whose body lacks the expected record array
contributes zero chunks and raises nothing: the loop carries on directly
with the page's `next_page` value (terminating if that is absent), both
for the generic extractor loop and for the ticket loop. -/
theorem zendesk_C5 (remote : Remote) (key : String) (mk : JVal → Except PyErr Chunk)
    (cfuel fuel : Nat) (u : String) (page : Page)
    (hu : u ≠ "")
    (hget : httpGet remote u = .ok page) :
    (lookupField page key = none →
      extractLoop remote key mk (fuel + 1) (.str u)
        = ⟨(extractLoop remote key mk fuel
              ((lookupField page "next_page").getD .null)).chunks,
           u :: (extractLoop remote key mk fuel
              ((lookupField page "next_page").getD .null)).requests,
           (extractLoop remote key mk fuel
              ((lookupField page "next_page").getD .null)).err⟩) ∧
    (lookupField page "tickets" = none →
      ticketsLoop remote cfuel (fuel + 1) (.str u)
        = ⟨(ticketsLoop remote cfuel fuel
              ((lookupField page "next_page").getD .null)).chunks,
           u :: (ticketsLoop remote cfuel fuel
              ((lookupField page "next_page").getD .null)).requests,
           (ticketsLoop remote cfuel fuel
              ((lookupField page "next_page").getD .null)).err⟩) := by
  have htr : pyTruthy (.str u) = true := by simp [pyTruthy, hu]
  constructor
  · intro hmiss
    simp [extractLoop, htr, hget, hmiss, pyIter, emitRecords]
  · intro hmiss
    simp [ticketsLoop, htr, hget, hmiss, pyIter, perTicketRecords, emptyRun]

/-- C5, witness: an empty JSON object page yields zero chunks, no error,
one fetch, and the loop terminates (no `next_page`). -/
theorem zendesk_C5_witness :
    extractLoop remoteEmptyPage "organizations" mkOrgChunkF 3 (.str "x")
      = ⟨[], ["x"], none⟩ ∧
    ticketsLoop remoteEmptyPage 1 3 (.str "x") = ⟨[], ["x"], none⟩ :=
  ⟨(zendesk_C5 remoteEmptyPage "organizations" mkOrgChunkF 1 2 "x" []
      (by decide) rfl).1 rfl,
   (zendesk_C5 remoteEmptyPage "organizations" mkOrgChunkF 1 2 "x" []
      (by decide) rfl).2 rfl⟩

/-- C6: a non-2xx response aborts the extraction at that point: the
failing loop yields no chunk from that page, performs no further fetch,
and raises `httpStatus`; and sequencing after a raised fragment executes
nothing (later phases yield no chunks and fetch no URL). -/
theorem zendesk_C6 (remote : Remote) (key : String) (mk : JVal → Except PyErr Chunk)
    (cfuel fuel : Nat) (u : String)
    (hu : u ≠ "")
    (hbad : ¬(200 ≤ (remote u).status ∧ (remote u).status < 300)) :
    extractLoop remote key mk (fuel + 1) (.str u)
      = ⟨[], [u], some (.httpStatus (remote u).status)⟩ ∧
    ticketsLoop remote cfuel (fuel + 1) (.str u)
      = ⟨[], [u], some (.httpStatus (remote u).status)⟩ ∧
    (∀ a b : Run, a.err.isSome → runSeq a b = a) := by
  have htr : pyTruthy (.str u) = true := by simp [pyTruthy, hu]
  have hget : httpGet remote u = .error (.httpStatus (remote u).status) := by
    simp [httpGet, hbad]
  refine ⟨by simp [extractLoop, htr, hget], by simp [ticketsLoop, htr, hget], ?_⟩
  intro a b ha
  unfold runSeq
  cases he : a.err with
  | some e => rfl
  | none => rw [he] at ha; simp at ha

/-- C6, witness: a remote answering 401 makes both loops raise
immediately after the single failing fetch. -/
theorem zendesk_C6_witness :
    extractLoop remoteAuthFail "users" mkOrgChunkF 3 (.str "x")
      = ⟨[], ["x"], some (.httpStatus 401)⟩ ∧
    ticketsLoop remoteAuthFail 1 3 (.str "x")
      = ⟨[], ["x"], some (.httpStatus 401)⟩ :=
  ⟨(zendesk_C6 remoteAuthFail "users" mkOrgChunkF 1 2 "x" (by decide) (by decide)).1,
   (zendesk_C6 remoteAuthFail "users" mkOrgChunkF 1 2 "x" (by decide) (by decide)).2.1⟩

/-- C7: a record missing an optional list-valued field yields a chunk
with an empty list for that field (an organization's `domain_names`, a
ticket's `tags` and `custom_fields`, a comment's `attachments`). -/
theorem zendesk_C7 :
    (∀ fs ch, mkOrganizationChunk (.obj fs) = .ok ch →
      lookupField fs "domain_names" = none → ch.domain_names = .arr []) ∧
    (∀ fs ch, mkTicketChunk (.obj fs) = .ok ch →
      (lookupField fs "tags" = none → ch.tags = .arr []) ∧
      (lookupField fs "custom_fields" = none → ch.custom_fields = .arr [])) ∧
    (∀ tid fs ch, mkCommentChunk tid (.obj fs) = .ok ch →
      lookupField fs "attachments" = none → ch.attachments = .arr []) := by
  refine ⟨?_, ?_, ?_⟩
  · intro fs ch h hl
    obtain ⟨_, _, hdom, _⟩ := mkOrganizationChunk_ok fs ch h
    rw [hdom, hl]
    rfl
  · intro fs ch h
    obtain ⟨_, _, _, _, _, _, htags, hcf, _⟩ := mkTicketChunk_ok fs ch h
    exact ⟨fun hl => by rw [htags, hl]; rfl, fun hl => by rw [hcf, hl]; rfl⟩
  · intro tid fs ch h hl
    obtain ⟨_, _, _, _, hatt, _⟩ := mkCommentChunk_ok tid fs ch h
    rw [hatt, hl]
    rfl

/-- C7, witness: the empty-list defaults evaluated on records that carry
only an `"id"`. -/
theorem zendesk_C7_witness :
    oNoOpt.domain_names = .arr [] ∧ tNoFK.tags = .arr [] ∧
    tNoFK.custom_fields = .arr [] ∧ cNoOpt.attachments = .arr [] :=
  ⟨zendesk_C7.1 [("id", .num 7)] oNoOpt rfl rfl,
   (zendesk_C7.2.1 [("id", .num 7)] tNoFK rfl).1 rfl,
   (zendesk_C7.2.1 [("id", .num 7)] tNoFK rfl).2 rfl,
   zendesk_C7.2.2 "42" [("id", .num 9)] cNoOpt rfl rfl⟩

/-- C8: every chunk yielded by `generate_chunks` carries
`source_name = "zendesk"` and `archived = false`; and each chunk
constructor stringifies the record's numeric `id` into `entity_id`
(which, being a `String`, is never an absence marker). -/
theorem zendesk_C8 :
    (∀ remote fuel c, c ∈ (generate_chunks remote fuel).chunks →
      c.sourceName = "zendesk" ∧ c.archivedFlag = false) ∧
    (∀ fs (n : Int) ch, mkOrganizationChunk (.obj fs) = .ok ch →
      lookupField fs "id" = some (.num n) → ch.entity_id = toString n) ∧
    (∀ fs (n : Int) ch, mkUserChunk (.obj fs) = .ok ch →
      lookupField fs "id" = some (.num n) → ch.entity_id = toString n) ∧
    (∀ fs (n : Int) ch, mkTicketChunk (.obj fs) = .ok ch →
      lookupField fs "id" = some (.num n) → ch.entity_id = toString n) ∧
    (∀ tid fs (n : Int) ch, mkCommentChunk tid (.obj fs) = .ok ch →
      lookupField fs "id" = some (.num n) → ch.entity_id = toString n) := by
  refine ⟨?_, ?_, ?_, ?_, ?_⟩
  · intro remote fuel c hc
    rcases generate_chunks_mem remote fuel c hc with
      ⟨r, oc, hmk, rfl⟩ | ⟨r, uc, hmk, rfl⟩ | ⟨r, t, hmk, rfl⟩ | ⟨tid, r, cc, hmk, rfl⟩
    · obtain ⟨fs, rfl⟩ := mkOrganizationChunk_objOf r oc hmk
      obtain ⟨hs, ha, _⟩ := mkOrganizationChunk_ok fs oc hmk
      exact ⟨hs, ha⟩
    · obtain ⟨fs, rfl⟩ := mkUserChunk_objOf r uc hmk
      obtain ⟨hs, ha, _⟩ := mkUserChunk_ok fs uc hmk
      exact ⟨hs, ha⟩
    · obtain ⟨fs, rfl⟩ := mkTicketChunk_objOf r t hmk
      obtain ⟨hs, ha, _⟩ := mkTicketChunk_ok fs t hmk
      exact ⟨hs, ha⟩
    · obtain ⟨fs, rfl⟩ := mkCommentChunk_objOf tid r cc hmk
      obtain ⟨hs, ha, _⟩ := mkCommentChunk_ok tid fs cc hmk
      exact ⟨hs, ha⟩
  · intro fs n ch h hid
    obtain ⟨_, _, _, idv, hidv, hent⟩ := mkOrganizationChunk_ok fs ch h
    rw [hidv] at hid
    injection hid with hid
    subst hid
    rw [hent]
    exact pyStr_num n
  · intro fs n ch h hid
    obtain ⟨_, _, idv, hidv, hent⟩ := mkUserChunk_ok fs ch h
    rw [hidv] at hid
    injection hid with hid
    subst hid
    rw [hent]
    exact pyStr_num n
  · intro fs n ch h hid
    obtain ⟨_, _, _, _, _, _, _, _, idv, hidv, hent⟩ := mkTicketChunk_ok fs ch h
    rw [hidv] at hid
    injection hid with hid
    subst hid
    rw [hent]
    exact pyStr_num n
  · intro tid fs n ch h hid
    obtain ⟨_, _, _, _, _, idv, hidv, hent⟩ := mkCommentChunk_ok tid fs ch h
    rw [hidv] at hid
    injection hid with hid
    subst hid
    rw [hent]
    exact pyStr_num n

/-- C8, witness: the invariants evaluated on the one chunk a concrete
one-organization remote produces. -/
theorem zendesk_C8_witness :
    (Chunk.org orgOne).sourceName = "zendesk" ∧
    (Chunk.org orgOne).archivedFlag = false ∧
    orgOne.entity_id = toString (1 : Int) := by
  have hm : Chunk.org orgOne ∈ (generate_chunks remoteOrgOnly 2).chunks := by
    rw [show (generate_chunks remoteOrgOnly 2).chunks = [Chunk.org orgOne] from rfl]
    exact List.mem_singleton.mpr rfl
  exact ⟨(zendesk_C8.1 remoteOrgOnly 2 _ hm).1, (zendesk_C8.1 remoteOrgOnly 2 _ hm).2,
         zendesk_C8.2.1 [("id", .num 1)] 1 orgOne rfl rfl⟩

/-- C10: a record without an `"id"` key makes its constructor raise
`KeyError("id")` (no default is substituted), the record is not skipped
(no chunk is built for it and iteration stops with the error), and the
pagination loop aborts with that error after the single fetch (no next
page is requested). -/
theorem zendesk_C10 :
    (∀ fs, lookupField fs "id" = none →
      mkOrganizationChunk (.obj fs) = .error (.keyError "id")) ∧
    (∀ fs, lookupField fs "id" = none →
      mkUserChunk (.obj fs) = .error (.keyError "id")) ∧
    (∀ fs, lookupField fs "id" = none →
      mkTicketChunk (.obj fs) = .error (.keyError "id")) ∧
    (∀ tid fs, lookupField fs "id" = none →
      mkCommentChunk tid (.obj fs) = .error (.keyError "id")) ∧
    (∀ mk (r : JVal) rs e, mk r = .error e →
      emitRecords mk (r :: rs) = ([], some e)) ∧
    (∀ remote key mk fuel u page recs cs e, u ≠ "" →
      httpGet remote u = .ok page →
      pyIter ((lookupField page key).getD (.arr [])) = .ok recs →
      emitRecords mk recs = (cs, some e) →
      extractLoop remote key mk (fuel + 1) (.str u) = ⟨cs, [u], some e⟩) := by
  refine ⟨?_, ?_, ?_, ?_, ?_, ?_⟩
  · intro fs h; simp [mkOrganizationChunk, h]
  · intro fs h; simp [mkUserChunk, h]
  · intro fs h; simp [mkTicketChunk, h]
  · intro tid fs h; simp [mkCommentChunk, h]
  · intro mk r rs e h; simp [emitRecords, h]
  · intro remote key mk fuel u page recs cs e hu hget hit hemit
    have htr : pyTruthy (.str u) = true := by simp [pyTruthy, hu]
    simp [extractLoop, htr, hget, hit, hemit]

/-- C10, witness: an organization record `{"name": "acme"}` raises
`KeyError("id")` and aborts the organization walk after one fetch. -/
theorem zendesk_C10_witness :
    mkOrganizationChunk (.obj [("name", .str "acme")]) = .error (.keyError "id") ∧
    extractLoop remoteNoId "organizations" mkOrgChunkF 3 (.str organizationsUrl)
      = ⟨[], [organizationsUrl], some (.keyError "id")⟩ :=
  ⟨zendesk_C10.1 [("name", .str "acme")] rfl,
   zendesk_C10.2.2.2.2.2 remoteNoId "organizations" mkOrgChunkF 2 organizationsUrl
     pageNoId [.obj [("name", .str "acme")]] [] (.keyError "id")
     (by decide) rfl rfl rfl⟩
